import Mathlib

/-!
Shallow embedding of `server.py` from the Twitch-Needle repository.

The program keeps one global integer `counter` (initially `0`).
A Twitch bot mutates it on each chat message (`TwitchBot.event_message`),
a Flask app exposes `/` (static HTML page), `/stream` (SSE frames),
`/reset` (sets the counter to 0) and `/shutdown`.  Startup reads
`TWITCH_CHANNEL`, `TWITCH_TOKEN` and `PORT` from the environment.

Strings are modelled as `String` / `List Char`; the global counter as an
explicit `Int` threaded through each operation.
-/

namespace Server

/-- Python `str.strip()`: drop whitespace from both ends. -/
def pyStrip (s : List Char) : List Char :=
  ((s.dropWhile Char.isWhitespace).reverse.dropWhile Char.isWhitespace).reverse

/-- Python `str.lower()`: case-fold every character. -/
def pyLower (s : List Char) : List Char :=
  s.map Char.toLower

/-- `message.content.strip().lower()` from `event_message`. -/
def normalize (s : List Char) : List Char :=
  pyLower (pyStrip s)

/-- `message.content.strip().lower()` applied to a `String` message. -/
def normalizeStr (m : String) : List Char :=
  normalize m.toList

/-- Does `s` start with `pat`? (helper for the substring test). -/
def startsWith : List Char → List Char → Bool
  | _, [] => true
  | [], _ :: _ => false
  | c :: cs, p :: ps => c == p && startsWith cs ps

/-- Python `pat in s` substring test. -/
def containsSub : List Char → List Char → Bool
  | [], pat => pat.isEmpty
  | c :: rest, pat => startsWith (c :: rest) pat || containsSub rest pat

/-- The pattern `"+2"`. -/
def plus2 : List Char := ['+', '2']

/-- The pattern `"-2"`. -/
def minus2 : List Char := ['-', '2']

/--
`TwitchBot.event_message` (server.py lines 171-177): normalize the
message content; if it contains `"+2"` add 2 to the counter, else if it
contains `"-2"` subtract 2, otherwise leave the counter unchanged.
-/
def event_message (counter : Int) (content : String) : Int :=
  if containsSub (normalizeStr content) plus2 then counter + 2
  else if containsSub (normalizeStr content) minus2 then counter - 2
  else counter

/-- The delta `event_message` applies for a given message content. -/
def msgDelta (content : String) : Int :=
  if containsSub (normalizeStr content) plus2 then 2
  else if containsSub (normalizeStr content) minus2 then -2
  else 0

/-- Process a sequence of chat messages starting from a given counter. -/
def processMessages (counter : Int) (msgs : List String) : Int :=
  msgs.foldl event_message counter

/-- An HTTP response as produced by the Flask view functions. -/
structure HttpRes where
  body : String
  status : Nat
  deriving DecidableEq

/--
`reset_counter` (server.py lines 190-194): set the global counter to 0
and return `('', 204)`.  Takes the prior counter, returns the new
counter together with the response.
-/
def reset_counter (counter : Int) : Int × HttpRes :=
  (0, ⟨"", 204⟩)

/-- One operation on the shared counter: a chat message or a reset. -/
inductive Op where
  | msg (content : String)
  | reset
  deriving DecidableEq

/-- Apply one operation to the counter state. -/
def applyOp (counter : Int) : Op → Int
  | Op.msg m => event_message counter m
  | Op.reset => (reset_counter counter).1

/-- Run a sequence of operations from the initial state `counter = 0`. -/
def runOps (ops : List Op) : Int :=
  ops.foldl applyOp 0

/-- Part of the HTML literal in `index` (server.py lines 51-164). -/
def htmlPre : String :=
"
    <!DOCTYPE html>
    <html lang=\"en\">
    <head>
      <meta charset=\"UTF-8\">
      <title>Counter Display</title>
      <style>
        body \x7b
          background-color: #FFFFFF;
          display: flex;
          flex-direction: column;
          align-items: center;
        \x7d
        .gauge-container \x7b
          position: relative;
          width: 400px;
          height: 200px;
          margin: 20px;
        \x7d
        #gauge \x7b
          position: absolute;
          width: 100%;
          height: 100%;
          z-index: 1;
          transform: scale(0.9);
        \x7d
        #needle \x7b
          position: absolute;
          width: 100%;
          height: 100%;
          z-index: 2;
          transform-origin: bottom center;
          transition: transform 0.3s ease;
        \x7d
        #counter \x7b
          font-size: 64px;
          font-weight: bold;
          position: absolute;
          left: 50%;
          top: 40%;
          transform: translate(-50%, -50%);
          z-index: 3;
          color: #000000;
          font-family: Arial, Helvetica, sans-serif;
        \x7d
        #reset-button \x7b
          margin-top: 20px;
          padding: 10px 20px;
          background: #ffffff;
          color: #000000;
          border: 2px solid #333;
          border-radius: 5px;
          cursor: pointer;
          font-size: 14px;
        \x7d
        .instructions \x7b
          font-size: 12px;
          color: #333;
          margin: 10px 0;
          background: white;
          padding: 5px;
        \x7d
      </style>
    </head>
    <body>
      <div class=\"gauge-container\">
        "

/-- Part of the HTML literal in `index` (server.py lines 51-164). -/
def htmlMid : String :=
"
        <img id=\"gauge\" src=\"/static/images/Gauge.svg\" alt=\"speed gauge\">
        <img id=\"needle\" src=\"/static/images/Needle.svg\" alt=\"needle indicator\">
      </div>
      <div class=\"instructions\">Click button below to reset counter</div>
      <button id=\"reset-button\" onclick=\"handleReset()\">Reset Counter</button>
      <button id=\"shutdown-button\" onclick=\"handleShutdown()\" style=\"margin-top: 10px; padding: 10px 20px; background: #ff4444; color: white; border: 2px solid #cc0000; border-radius: 5px; cursor: pointer; font-size: 14px;\">Shutdown Server</button>
      "

/-- Part of the HTML literal in `index` (server.py lines 51-164). -/
def htmlTail : String :=
"
        async function handleShutdown() \x7b
          if (confirm(\x27Are you sure you want to shutdown the server?\x27)) \x7b
            try \x7b
              await fetch(\x27/shutdown\x27, \x7b method: \x27POST\x27 \x7d);
              alert(\x27Server is shutting down...\x27);
            \x7d catch (error) \x7b
              console.error(\x27Error:\x27, error);
            \x7d
          \x7d
        \x7d

        async function handleReset() \x7b
          try \x7b
            const response = await fetch(\x27/reset\x27, \x7b method: \x27POST\x27 \x7d);
            if (!response.ok) throw new Error(\x27Reset failed\x27);
            document.getElementById(\x27counter\x27).innerText = \x270\x27;
            document.getElementById(\x27needle\x27).style.transform = \x27rotate(0deg)\x27;
          \x7d catch (error) \x7b
            console.error(\x27Error:\x27, error);
          \x7d
        \x7d

        const evtSource = new EventSource(\"/stream\");
        evtSource.onmessage = function(event) \x7b
          try \x7b
            const data = JSON.parse(event.data);
            const angle = Math.tanh(data.counter / 500) * 90;
            document.getElementById(\x27needle\x27).style.transform = `rotate($\x7bangle\x7ddeg)`;
            document.getElementById(\"counter\").innerText = data.counter;
          \x7d catch (e) \x7b
            console.error(\"Error parsing message:\", e);
          \x7d
        \x7d;
        evtSource.onerror = function(error) \x7b
          console.error(\"EventSource error:\", error);
        \x7d;
      </script>
    </body>
    </html>
    "

/-- The `0` label div inside the index page. -/
def counterDiv : String :=
"<div id=\"counter\">0</div>"

/-- The opening script tag of the embedded client script. -/
def scriptTag : String :=
"<script>"

/--
`index` (server.py lines 49-165): render the constant HTML page.  The
handler ignores all server state; we pass it the current counter to
state that the response does not depend on it.
-/
def index (counter : Int) : String :=
  htmlPre ++ counterDiv ++ htmlMid ++ scriptTag ++ htmlTail

/-- `json.dumps({"counter": counter})` for an integer counter. -/
def counterJson (n : Int) : String :=
  "\x7b\"counter\": " ++ toString n ++ "\x7d"

/-- One SSE frame `data: <json>\n\n` as yielded by `event_stream`. -/
def sseFrame (n : Int) : String :=
  "data: " ++ counterJson n ++ "\n\n"

/--
`stream.event_stream` (server.py lines 36-45): starting from
`last_value = None`, each poll reads the counter; when it differs from
`last_value` a frame is yielded and `last_value` is updated.  `obs` is
the sequence of counter values observed at successive polls; the result
is the list of frames yielded.
-/
def event_stream : Option Int → List Int → List String
  | _, [] => []
  | last, v :: rest =>
    if some v ≠ last then sseFrame v :: event_stream (some v) rest
    else event_stream last rest

/-- Frames produced for one subscriber (initial `last_value = None`). -/
def streamFrames (obs : List Int) : List String :=
  event_stream none obs

/--
Spec-side restatement (from the spec's words, for refinement): the
values pushed are exactly the observed values that differ from the last
value sent to this subscriber.
-/
def specTransitions : Option Int → List Int → List Int
  | _, [] => []
  | lastSent, v :: rest =>
    if some v ≠ lastSent then v :: specTransitions (some v) rest
    else specTransitions lastSent rest

/-- The environment variables the program reads at startup. -/
structure Env where
  channel : Option String
  token : Option String
  port : Option String

/-- Python truthiness of the value returned by `os.getenv` (both `None`
and the empty string are falsy). -/
def truthy : Option String → Bool
  | none => false
  | some s => !s.isEmpty

/-- The configuration assembled at startup. -/
structure AppConfig where
  twitchChannel : String
  twitchToken : String
  port : Int
  deriving DecidableEq

/-- The startup error message raised for missing channel/token. -/
def missingMsg : String :=
  "Please ensure TWITCH_CHANNEL and TWITCH_TOKEN are set in your .env file."

/-- Accumulate decimal digits; `none` on the first non-digit. -/
def digitsToNat : List Char → Nat → Option Nat
  | [], acc => some acc
  | c :: rest, acc =>
    if c.isDigit then digitsToNat rest (acc * 10 + (c.toNat - Char.toNat '0'))
    else none

/-- Python `int(str)` on an ASCII decimal string: strip whitespace,
optional sign, at least one digit; `ValueError` modelled as `none`. -/
def pyInt (s : String) : Option Int :=
  match pyStrip s.toList with
  | [] => none
  | '+' :: ds =>
    if ds.isEmpty then none else (digitsToNat ds 0).map Int.ofNat
  | '-' :: ds =>
    if ds.isEmpty then none else (digitsToNat ds 0).map (fun n => -(Int.ofNat n))
  | ds => (digitsToNat ds 0).map Int.ofNat

/--
Module-level startup (server.py lines 21-25): read `TWITCH_CHANNEL`,
`TWITCH_TOKEN` and `PORT` (defaulting to `"8080"`, converted with
`int(...)` immediately), then raise `ValueError` if channel or token is
missing/empty.  All of this runs before `main()` starts any task.
-/
def loadConfig (env : Env) : Except String AppConfig :=
  match pyInt (env.port.getD "8080") with
  | none => Except.error "invalid literal for int()"
  | some p =>
    if truthy env.channel && truthy env.token then
      Except.ok ⟨env.channel.getD "", env.token.getD "", p⟩
    else
      Except.error missingMsg

/-- The needle mapping from the embedded client script (server.py line
151): `Math.tanh(counter / 500) * 90`. -/
noncomputable def needleAngle (c : ℝ) : ℝ :=
  Real.tanh (c / 500) * 90

end Server

namespace Server

lemma event_message_eq_add (k : Int) (m : String) :
    event_message k m = k + msgDelta m := by
  unfold event_message msgDelta
  by_cases h1 : containsSub (normalizeStr m) plus2 = true
  · simp [h1]
  · by_cases h2 : containsSub (normalizeStr m) minus2 = true
    · simp [h1, h2]
      ring
    · simp [h1, h2]

lemma processMessages_eq_add (msgs : List String) :
    ∀ k : Int, processMessages k msgs = k + (msgs.map msgDelta).sum := by
  induction msgs with
  | nil => intro k; simp [processMessages]
  | cons m rest ih =>
      intro k
      have h : processMessages k (m :: rest)
          = processMessages (event_message k m) rest := rfl
      rw [h, ih, event_message_eq_add]
      simp [List.map_cons, List.sum_cons]
      ring

/--
C1: starting from counter 0, processing any finite message sequence
leaves the counter at the arithmetic sum of the applied deltas
(+2 / -2 / 0 per message); in particular the sequence
`"+2 nice"`, `"-2 aw"`, `"+2"` yields counter 2.
-/
theorem counter_is_sum_of_deltas :
    (∀ msgs : List String, processMessages 0 msgs = (msgs.map msgDelta).sum) ∧
    processMessages 0 ["+2 nice", "-2 aw", "+2"] = 2 := by
  constructor
  · intro msgs
    rw [processMessages_eq_add]
    ring
  · decide

/--
C2: a message whose normalized content contains both `"+2"` and `"-2"`
increments the counter by exactly +2 (the `+2` branch takes priority).
-/
theorem plus_two_priority (k : Int) (m : String)
    (hplus : containsSub (normalizeStr m) plus2 = true)
    (hminus : containsSub (normalizeStr m) minus2 = true) :
    event_message k m = k + 2 := by
  unfold event_message
  simp [hplus]

theorem plus_two_priority_witness :
    containsSub (normalizeStr "+2 and -2") plus2 = true ∧
    containsSub (normalizeStr "+2 and -2") minus2 = true ∧
    event_message 0 "+2 and -2" = 0 + 2 :=
  ⟨by decide, by decide, plus_two_priority 0 "+2 and -2" (by decide) (by decide)⟩

/--
C4: a message whose normalized content contains neither `"+2"` nor
`"-2"` leaves the counter unchanged.
-/
theorem unmatched_message_noop (k : Int) (m : String)
    (hplus : containsSub (normalizeStr m) plus2 = false)
    (hminus : containsSub (normalizeStr m) minus2 = false) :
    event_message k m = k := by
  unfold event_message
  simp [hplus, hminus]

theorem unmatched_message_noop_witness :
    containsSub (normalizeStr "hello") plus2 = false ∧
    containsSub (normalizeStr "hello") minus2 = false ∧
    event_message 5 "hello" = 5 :=
  ⟨by decide, by decide, unmatched_message_noop 5 "hello" (by decide) (by decide)⟩

/--
C3: for every prior counter value, `reset_counter` sets the counter to 0
and returns an empty success response (`''`, status 204), and it is
idempotent: resetting twice leaves the same state as resetting once.
-/
theorem reset_zero_idempotent :
    ∀ c : Int,
      (reset_counter c).1 = 0 ∧
      (reset_counter c).2.body = "" ∧
      (reset_counter c).2.status = 204 ∧
      200 ≤ (reset_counter c).2.status ∧ (reset_counter c).2.status < 300 ∧
      reset_counter ((reset_counter c).1) = reset_counter c := by
  intro c
  refine ⟨rfl, rfl, rfl, ?_, ?_, rfl⟩ <;> simp [reset_counter]

lemma msgDelta_even (m : String) : Even (msgDelta m) := by
  unfold msgDelta
  by_cases h1 : containsSub (normalizeStr m) plus2 = true
  · simp [h1]
  · by_cases h2 : containsSub (normalizeStr m) minus2 = true
    · simp [h1, h2]
    · simp [h1, h2]

lemma applyOp_even (c : Int) (op : Op) (hc : Even c) : Even (applyOp c op) := by
  cases op with
  | msg m =>
      have h : applyOp c (Op.msg m) = c + msgDelta m := event_message_eq_add c m
      rw [h]
      exact hc.add (msgDelta_even m)
  | reset => simp [applyOp, reset_counter]

lemma foldl_applyOp_even (ops : List Op) :
    ∀ c : Int, Even c → Even (ops.foldl applyOp c) := by
  induction ops with
  | nil => intro c hc; simpa using hc
  | cons op rest ih =>
      intro c hc
      have h : (op :: rest).foldl applyOp c = rest.foldl applyOp (applyOp c op) := rfl
      rw [h]
      exact ih _ (applyOp_even c op hc)

/--
C10: in every state reachable from startup (counter 0) by chat-message
handling and resets, the counter is an even integer.
-/
theorem counter_always_even : ∀ ops : List Op, Even (runOps ops) := by
  intro ops
  exact foldl_applyOp_even ops 0 ⟨0, rfl⟩

lemma event_stream_eq_map (obs : List Int) :
    ∀ last : Option Int,
      event_stream last obs = (specTransitions last obs).map sseFrame := by
  induction obs with
  | nil => intro last; rfl
  | cons v rest ih =>
      intro last
      by_cases h : some v ≠ last
      · simp [event_stream, specTransitions, h, ih]
      · simp [event_stream, specTransitions, h, ih]

/--
C5: the stream emits a frame `data: {"counter": N}\n\n` exactly for the
observed values that differ from the last value sent to this
subscriber, and the first frame a subscriber ever receives carries the
first value it observes (the current counter), never a backlog.
-/
theorem stream_emits_transitions :
    (∀ obs : List Int,
      streamFrames obs = (specTransitions none obs).map sseFrame) ∧
    (∀ v : Int, ∀ rest : List Int,
      (streamFrames (v :: rest)).head? = some (sseFrame v)) := by
  constructor
  · intro obs
    exact event_stream_eq_map obs none
  · intro v rest
    simp [streamFrames, event_stream]

/--
C7: if the channel or the token is missing from the environment,
startup produces an error and no configuration (so `main()` never runs
and no listener is bound); when `PORT` is absent and channel/token are
present, the configured port defaults to 8080.
-/
theorem config_fail_fast (env : Env) :
    ((env.channel = none ∨ env.token = none) →
      (∀ cfg : AppConfig, loadConfig env ≠ Except.ok cfg) ∧
      (env.port = none → loadConfig env = Except.error missingMsg)) ∧
    (env.port = none → truthy env.channel = true → truthy env.token = true →
      ∃ ch tok : String, loadConfig env = Except.ok ⟨ch, tok, 8080⟩) := by
  constructor
  · intro hmiss
    have hfalse : (truthy env.channel && truthy env.token) = false := by
      cases hmiss with
      | inl h => simp [h, truthy]
      | inr h => simp [h, truthy]
    constructor
    · intro cfg
      unfold loadConfig
      cases hp : pyInt (env.port.getD "8080") with
      | none => simp
      | some p => simp [hfalse]
    · intro hport
      have h8080 : pyInt ((none : Option String).getD "8080") = some 8080 := by
        decide
      unfold loadConfig
      rw [hport, h8080]
      simp [hfalse]
  · intro hport hch htok
    refine ⟨env.channel.getD "", env.token.getD "", ?_⟩
    have h8080 : pyInt ((none : Option String).getD "8080") = some 8080 := by
      decide
    unfold loadConfig
    rw [hport, h8080]
    simp [hch, htok]

theorem config_fail_fast_witness :
    ((Env.mk none (some "tok") none).channel = none ∨
      (Env.mk none (some "tok") none).token = none) ∧
    loadConfig (Env.mk none (some "tok") none) = Except.error missingMsg ∧
    (∃ ch tok : String,
      loadConfig (Env.mk (some "chan") (some "tok") none) =
        Except.ok ⟨ch, tok, 8080⟩) :=
  ⟨Or.inl rfl,
   ((config_fail_fast (Env.mk none (some "tok") none)).1 (Or.inl rfl)).2 rfl,
   (config_fail_fast (Env.mk (some "chan") (some "tok") none)).2 rfl
     (by decide) (by decide)⟩

/--
C9: the index handler returns the same static HTML for every server
state — its response is independent of the counter — and that HTML
carries the initial counter label `0` and an embedded script.
-/
theorem index_static_and_state_independent :
    (∀ c₁ c₂ : Int, index c₁ = index c₂) ∧
    (∃ a b : String, index 0 = a ++ ("<div id=\"counter\">0</div>" ++ b)) ∧
    (∃ a b : String, index 0 = a ++ ("<script>" ++ b)) := by
  refine ⟨fun c₁ c₂ => rfl, ⟨htmlPre, htmlMid ++ scriptTag ++ htmlTail, ?_⟩,
    ⟨htmlPre ++ counterDiv ++ htmlMid, htmlTail, ?_⟩⟩
  · simp [index, counterDiv, String.append_assoc]
  · simp [index, scriptTag, String.append_assoc]

lemma tanh_eq_one_sub (x : ℝ) :
    Real.tanh x = 1 - 2 / (Real.exp (2 * x) + 1) := by
  have hx : Real.exp x ≠ 0 := (Real.exp_pos x).ne'
  have h2 : Real.exp (2 * x) = Real.exp x * Real.exp x := by
    rw [two_mul, Real.exp_add]
  have hden : Real.exp x + (Real.exp x)⁻¹ ≠ 0 := by positivity
  have hden2 : Real.exp x * Real.exp x + 1 ≠ 0 := by positivity
  rw [Real.tanh_eq_sinh_div_cosh, Real.sinh_eq, Real.cosh_eq, Real.exp_neg, h2]
  field_simp
  ring

lemma tanh_strictMonoAux : StrictMono Real.tanh := by
  intro a b hab
  rw [tanh_eq_one_sub, tanh_eq_one_sub]
  have h1 : (0 : ℝ) < Real.exp (2 * a) + 1 := by positivity
  have h2 : Real.exp (2 * a) + 1 < Real.exp (2 * b) + 1 := by
    have := Real.exp_lt_exp.mpr (by linarith : 2 * a < 2 * b)
    linarith
  have h3 : 2 / (Real.exp (2 * b) + 1) < 2 / (Real.exp (2 * a) + 1) :=
    div_lt_div_of_pos_left (by norm_num) h1 h2
  linarith

lemma tanh_lt_one_aux (x : ℝ) : Real.tanh x < 1 := by
  rw [tanh_eq_one_sub]
  have h1 : (0 : ℝ) < 2 / (Real.exp (2 * x) + 1) := by positivity
  linarith

lemma neg_one_lt_tanh_aux (x : ℝ) : -1 < Real.tanh x := by
  rw [tanh_eq_one_sub]
  have h1 : (0 : ℝ) < Real.exp (2 * x) + 1 := by positivity
  have h2 : 2 / (Real.exp (2 * x) + 1) < 2 := by
    rw [div_lt_iff₀ h1]
    have := Real.exp_pos (2 * x)
    linarith
  linarith

lemma tendsto_tanh_atTop : Filter.Tendsto Real.tanh Filter.atTop (nhds 1) := by
  have h : Real.tanh = fun x : ℝ => 1 - 2 / (Real.exp (2 * x) + 1) :=
    funext tanh_eq_one_sub
  rw [h]
  have h1 : Filter.Tendsto (fun x : ℝ => Real.exp (2 * x) + 1)
      Filter.atTop Filter.atTop := by
    apply Filter.tendsto_atTop_add_const_right
    exact Real.tendsto_exp_atTop.comp (Filter.tendsto_id.const_mul_atTop two_pos)
  have h2 : Filter.Tendsto (fun x : ℝ => 2 / (Real.exp (2 * x) + 1))
      Filter.atTop (nhds 0) := by
    have h0 := h1.inv_tendsto_atTop
    have h3 := h0.const_mul (2 : ℝ)
    simpa [div_eq_mul_inv, Function.comp] using h3
  have h4 := Filter.Tendsto.const_sub (1 : ℝ) h2
  simpa using h4

/--
C6: the needle angle `tanh(counter / 500) * 90` is strictly monotone in
the counter, strictly inside (-90, 90) for every integer counter, zero
at counter 0, tends to 90 as the counter grows large positive, and is
odd (symmetric for negative counters).
-/
theorem needle_angle_props :
    StrictMono needleAngle ∧
    (∀ c : ℤ, -90 < needleAngle c ∧ needleAngle c < 90) ∧
    needleAngle 0 = 0 ∧
    Filter.Tendsto needleAngle Filter.atTop (nhds 90) ∧
    (∀ x : ℝ, needleAngle (-x) = -needleAngle x) := by
  refine ⟨?_, ?_, ?_, ?_, ?_⟩
  · intro a b hab
    unfold needleAngle
    have h : Real.tanh (a / 500) < Real.tanh (b / 500) :=
      tanh_strictMonoAux (by linarith)
    nlinarith
  · intro c
    unfold needleAngle
    have h1 := tanh_lt_one_aux ((c : ℝ) / 500)
    have h2 := neg_one_lt_tanh_aux ((c : ℝ) / 500)
    constructor <;> nlinarith
  · unfold needleAngle
    simp [Real.tanh_zero]
  · unfold needleAngle
    have h1 : Filter.Tendsto (fun c : ℝ => c / 500) Filter.atTop Filter.atTop :=
      Filter.tendsto_id.atTop_div_const (by norm_num)
    have h2 : Filter.Tendsto (fun c : ℝ => Real.tanh (c / 500))
        Filter.atTop (nhds 1) := tendsto_tanh_atTop.comp h1
    have h3 := h2.mul_const (90 : ℝ)
    simpa using h3
  · intro x
    unfold needleAngle
    rw [neg_div, Real.tanh_neg]
    ring

end Server
